import Mathlib

/-!
Shallow embedding of the bloom-filter watch-stream resumption probe
(`packages/firestore/scripts/bloom_filter_watch_test/run_test.ts`) and of the
delay-selection utility (`packages/auth-ts/src/core/util/delay.ts`).

The probe is a sequence of asynchronous calls to three collaborators (a watch
stream, a document-store accessor, and a logger).  The collaborators are not
part of this repository fragment; their behaviour is modelled by an
environment record (`Env`) giving the outcome of each call, and every call is
additionally recorded as an `Event` in a trace, so that theorems can speak
about which side effects occurred and in what order.  Fallible operations
return `Except`, machine numbers are modelled as `Int`, and TS `undefined`
on optional fields is modelled as `Option`.
-/

/-- The document field key used to tag the documents of one probe run
(`DOCUMENT_DATA_KEY` in run_test.ts). -/
def DOCUMENT_DATA_KEY : String := "BloomFilterWatchTest_GroupId"

/-- Wire shape of the `bits` message of an existence filter
(`unchangedNames.bits` in the proto): an optional bitmap byte string and an
optional padding count.  The code reads only the bitmap's `.length`, so the
bitmap is modelled as its byte string. -/
structure BitSequence where
  bitmap : Option String := none
  padding : Option Int := none
deriving DecidableEq

/-- Wire shape of the `unchangedNames` bloom-filter message: an optional
`bits` sequence. -/
structure BloomFilterMsg where
  bits : Option BitSequence := none
deriving DecidableEq

/-- Wire shape of an existence filter as used by `getBloomFilterNumBits`:
only the optional `unchangedNames` field is read. -/
structure ExistenceFilter where
  unchangedNames : Option BloomFilterMsg := none
deriving DecidableEq

/-- Embedding of `getBloomFilterNumBits` (run_test.ts lines 181-191).  The
argument is an `Option` because the TS code guards the very first access with
`existenceFilter?.unchangedNames`, which also tolerates a missing filter. -/
def getBloomFilterNumBits (existenceFilter : Option ExistenceFilter) : Option Int :=
  match existenceFilter.bind ExistenceFilter.unchangedNames with
  | none => none
  | some unchangedNames =>
    let bitmap : String := (unchangedNames.bits.bind BitSequence.bitmap).getD ("")
    let padding : Int := (unchangedNames.bits.bind BitSequence.padding).getD 0
    if padding < 0 ∨ 7 < padding then none
    else some ((bitmap.length : Int) * 8 - padding)

/-- The effective bitmap of an existence filter's bloom-filter message, with
the code's fallback `?? ''`. -/
def bloomBitmap (unchangedNames : BloomFilterMsg) : String :=
  (unchangedNames.bits.bind BitSequence.bitmap).getD ("")

/-- The effective padding of an existence filter's bloom-filter message, with
the code's fallback `?? 0`. -/
def bloomPadding (unchangedNames : BloomFilterMsg) : Int :=
  (unchangedNames.bits.bind BitSequence.padding).getD 0

/-- Modelled from the spec: `TargetSnapshot` is declared in `watch_stream.ts`,
which is not part of this fragment.  The spec describes a snapshot as the set
of document path identifiers currently matching a target; it is modelled as
the set's elements, a list of document paths, with the set's `size` being its
length. -/
structure TargetSnapshot where
  documentPaths : List String
deriving DecidableEq

/-- The resume descriptor of a target spec: the snapshot resumed from plus the
expected document count. -/
structure ResumeSpec where
  resumeFrom : TargetSnapshot
  expectedCount : Int
deriving DecidableEq

/-- The argument of `WatchStream.addTarget` as built by run_test.ts: target
id, project, collection, an equality field filter, and an optional resume
descriptor. -/
structure TargetSpec where
  targetId : Nat
  projectId : String
  collectionId : String
  keyFilter : String
  valueFilter : String
  resume : Option ResumeSpec := none
deriving DecidableEq

/-- Structured content of each `log(...)` call of run_test.ts, in source
order.  String formatting is irrelevant to the claims, so each message keeps
the data it interpolates instead of the rendered string. -/
inductive LogMsg where
  | testStarted
  | creatingWatchStream (projectId : String) (host : String)
  | creatingDocuments (count : Int) (collectionId : String)
  | createdDocuments (count : Int) (collectionId : String) (sortedIds : List String)
  | deletingDocuments (sortedIds : List String)
  | deletedDocuments (count : Int)
  | pausing (numSeconds : Int)
  | addingTarget
  | waitingForSnapshot
  | gotSnapshot (count : Int) (ids : List String)
  | removingTarget
  | resumingTarget (expectedCount : Int)
  | waitingForExistenceFilter
  | didNotGetExistenceFilter
  | gotExistenceFilter (f : ExistenceFilter)
  | bloomFilterSizeBits (numBits : Int)
  | closingWatchStream
  | testCompleted
deriving DecidableEq

/-- One observable side effect of the probe: either a log line or the
invocation of a collaborator operation (recorded at invocation time, whether
or not the call then succeeds). -/
inductive Event where
  | log (m : LogMsg)
  | createWatchStreamCalled
  | openCalled
  | closeCalled
  | createDocumentsCalled (count : Int) (fieldKey : String) (fieldValue : String)
  | deleteDocumentsCalled (refs : List String)
  | addTargetCalled (spec : TargetSpec)
  | removeTargetCalled (targetId : Nat)
  | getInitialSnapshotCalled (targetId : Nat)
  | getExistenceFilterCalled (targetId : Nat)
  | pauseCalled (numSeconds : Int)
deriving DecidableEq

/-- The errors `runTest` can complete with: its own options validation error
(`InvalidRunTestOptionsError`), a failed `assertDeepEqual`, or an error
propagated from a collaborator call. -/
inductive RunError where
  | invalidRunTestOptions (message : String)
  | assertionFailed
  | collaborator (message : String)
deriving DecidableEq

/-- Which of the two racing promises of the resume step resolves first: the
existence-filter promise (with its outcome) or the snapshot promise (whose
outcome is the environment's `snapshot2`). -/
inductive FirstResolved where
  | filter (outcome : Except String ExistenceFilter)
  | snapshot

/-- The behaviour of the collaborators during one probe run: the two
generated ids and the outcome of each collaborator call, in the order the
probe makes them. -/
structure Env where
  uniqueId : String
  autoCollectionId : String
  openOutcome : Except String Unit
  createDocsOutcome : Except String (List String)
  addTarget1Outcome : Except String Unit
  initialSnapshot1 : Except String TargetSnapshot
  removeTarget1Outcome : Except String Unit
  deleteDocsOutcome : Except String Unit
  addTarget2Outcome : Except String Unit
  firstResolved : FirstResolved
  snapshot2 : Except String TargetSnapshot
  closeOutcome : Except String Unit

/-- Boolean code-point lexicographic comparison of char lists, the order in
which `Array.prototype.sort()` compares the probe's id strings. -/
def charListLeB : List Char → List Char → Bool
  | [], _ => true
  | _ :: _, [] => false
  | a :: as, b :: bs =>
    if a < b then true
    else if b < a then false
    else charListLeB as bs

/-- The default string order of `Array.prototype.sort()`: lexicographic on
the code units of the two strings. -/
def strLe (a b : String) : Prop := charListLeB a.data b.data = true

instance : DecidableRel strLe := fun a b => (charListLeB a.data b.data).decEq true

/-- Sorting of a string array, as `Array.prototype.sort()` does for the
document-id arrays of run_test.ts. -/
def sortStrings (xs : List String) : List String :=
  List.insertionSort strLe xs

/-- The chars after the last slash of a char list (the whole list when no
slash occurs). -/
def charsAfterLastSlash (cs : List Char) : List Char :=
  cs.foldl (fun acc c => if c = '/' then [] else acc ++ [c]) []

/-- Modelled from the spec: `documentIdFromDocumentPath` lives in `util.ts`,
which is not part of this fragment.  A document path names a document inside
a collection; its document identifier is the final slash-separated path
segment. -/
def documentIdFromDocumentPath (documentPath : String) : String :=
  String.mk (charsAfterLastSlash documentPath.data)

/-- Modelled from the spec: `assertDeepEqual` lives in `util.ts`, which is
not part of this fragment.  It deep-compares two string arrays and throws on
mismatch; modelled as a decidable list-equality check. -/
def assertDeepEqual (actual expected : List String) : Except RunError Unit :=
  if actual = expected then Except.ok () else Except.error RunError.assertionFailed

/-- Embedding of `assertDocumentsInSnapshot` (run_test.ts lines 193-197):
map the snapshot's paths to ids and sort, sort the expected ids, and
deep-compare. -/
def assertDocumentsInSnapshot (snapshot : TargetSnapshot)
    (expectedDocuments : List String) : Except RunError Unit :=
  let actualDocumentPathsSorted :=
    sortStrings (snapshot.documentPaths.map documentIdFromDocumentPath)
  let expectedDocumentPathsSorted := sortStrings expectedDocuments
  assertDeepEqual actualDocumentPathsSorted expectedDocumentPathsSorted

/-- TS `Array.prototype.slice(start)` with one argument: a negative start
counts from the end (clamped at 0) and a start past the end yields the empty
array. -/
def arraySlice {α : Type} (xs : List α) (start : Int) : List α :=
  if start < 0 then xs.drop ((xs.length + start).toNat)
  else xs.drop start.toNat

/-- TS `Math.ceil(x / 2)` on an integer input, used for the default
`documentDeleteCount`. -/
def ceilHalf (x : Int) : Int := (x + 1).fdiv 2

/-- The optional options bag of `resumeWatchStream`. -/
structure ResumeOptions where
  expectedCount : Option Int := none
deriving DecidableEq

/-- The state of the `BloomFilterWatchTest` class: its constructor arguments
(minus the collaborator handles, which live in `Env`) plus the generated
`uniqueId`. -/
structure BloomFilterWatchTest where
  projectId : String
  host : String
  ssl : Bool
  documentCreateCount : Int
  documentDeleteCount : Int
  collectionId : String
  uniqueId : String

/-- The target spec run_test.ts passes to `addTarget` for target 1. -/
def BloomFilterWatchTest.target1Spec (self : BloomFilterWatchTest) : TargetSpec :=
  { targetId := 1
    projectId := self.projectId
    collectionId := self.collectionId
    keyFilter := DOCUMENT_DATA_KEY
    valueFilter := self.uniqueId }

/-- The target spec run_test.ts passes to `addTarget` for target 2, resuming
the given snapshot with the given expected count. -/
def BloomFilterWatchTest.target2Spec (self : BloomFilterWatchTest)
    (snapshot : TargetSnapshot) (expectedCount : Int) : TargetSpec :=
  { targetId := 2
    projectId := self.projectId
    collectionId := self.collectionId
    keyFilter := DOCUMENT_DATA_KEY
    valueFilter := self.uniqueId
    resume := some ⟨snapshot, expectedCount⟩ }

/-- Embedding of `BloomFilterWatchTest.createDocuments` (lines 98-106): log,
call the document util, then log the sorted created ids. -/
def BloomFilterWatchTest.createDocuments (self : BloomFilterWatchTest) (env : Env) :
    Except RunError (List String) × List Event :=
  let ev := [Event.log (LogMsg.creatingDocuments self.documentCreateCount self.collectionId),
             Event.createDocumentsCalled self.documentCreateCount DOCUMENT_DATA_KEY self.uniqueId]
  match env.createDocsOutcome with
  | Except.error e => (Except.error (RunError.collaborator e), ev)
  | Except.ok createdDocumentRefs =>
      (Except.ok createdDocumentRefs,
       ev ++ [Event.log (LogMsg.createdDocuments self.documentCreateCount self.collectionId
                (sortStrings createdDocumentRefs))])

/-- Embedding of `BloomFilterWatchTest.deleteDocuments` (lines 108-114): log
the sorted ids, call the document util, log completion.  A document
reference is modelled by its id. -/
def BloomFilterWatchTest.deleteDocuments (_self : BloomFilterWatchTest)
    (documentRefsToDelete : List String) (env : Env) :
    Except RunError Unit × List Event :=
  let ev := [Event.log (LogMsg.deletingDocuments (sortStrings documentRefsToDelete)),
             Event.deleteDocumentsCalled documentRefsToDelete]
  match env.deleteDocsOutcome with
  | Except.error e => (Except.error (RunError.collaborator e), ev)
  | Except.ok _ =>
      (Except.ok (), ev ++ [Event.log (LogMsg.deletedDocuments (documentRefsToDelete.length : Int))])

/-- Embedding of `BloomFilterWatchTest.pause` (lines 116-119): a log line and
the timer call; real time does not exist in the model. -/
def BloomFilterWatchTest.pause (_self : BloomFilterWatchTest) (numSecondsToPause : Int) :
    List Event :=
  [Event.log (LogMsg.pausing numSecondsToPause), Event.pauseCalled numSecondsToPause]

/-- Embedding of `BloomFilterWatchTest.startTarget` (lines 121-141): add
target 1, await its initial snapshot, log its ids, remove target 1, return
the snapshot. -/
def BloomFilterWatchTest.startTarget (self : BloomFilterWatchTest) (env : Env) :
    Except RunError TargetSnapshot × List Event :=
  let ev := [Event.log LogMsg.addingTarget, Event.addTargetCalled self.target1Spec]
  match env.addTarget1Outcome with
  | Except.error e => (Except.error (RunError.collaborator e), ev)
  | Except.ok _ =>
    let ev := ev ++ [Event.log LogMsg.waitingForSnapshot, Event.getInitialSnapshotCalled 1]
    match env.initialSnapshot1 with
    | Except.error e => (Except.error (RunError.collaborator e), ev)
    | Except.ok snapshot =>
      let documentIds :=
        (sortStrings snapshot.documentPaths).map documentIdFromDocumentPath
      let ev := ev ++ [Event.log (LogMsg.gotSnapshot (documentIds.length : Int) documentIds),
                       Event.log LogMsg.removingTarget, Event.removeTargetCalled 1]
      match env.removeTarget1Outcome with
      | Except.error e => (Except.error (RunError.collaborator e), ev)
      | Except.ok _ => (Except.ok snapshot, ev)

/-- The tail of `resumeWatchStream` (lines 173-177), reached from both
branches of the filter/snapshot discrimination: await the snapshot promise
and log the resulting document ids. -/
def awaitSnapshotTail (ev : List Event) (env : Env) : Except RunError Unit × List Event :=
  let ev := ev ++ [Event.log LogMsg.waitingForSnapshot]
  match env.snapshot2 with
  | Except.error e => (Except.error (RunError.collaborator e), ev)
  | Except.ok snapshot2 =>
    let documentIds2 :=
      (sortStrings snapshot2.documentPaths).map documentIdFromDocumentPath
    (Except.ok (),
     ev ++ [Event.log (LogMsg.gotSnapshot (documentIds2.length : Int) documentIds2)])

/-- Embedding of `BloomFilterWatchTest.resumeWatchStream` (lines 143-178):
add target 2 with a resume descriptor whose expected count defaults to the
prior snapshot's size, race the existence-filter promise against the
snapshot promise, log the winner (decoding the filter's bit length when a
filter won), then await the snapshot promise unconditionally. -/
def BloomFilterWatchTest.resumeWatchStream (self : BloomFilterWatchTest)
    (snapshot : TargetSnapshot) (options : Option ResumeOptions) (env : Env) :
    Except RunError Unit × List Event :=
  let expectedCount : Int :=
    (options.bind ResumeOptions.expectedCount).getD (snapshot.documentPaths.length : Int)
  let ev := [Event.log (LogMsg.resumingTarget expectedCount),
             Event.addTargetCalled (self.target2Spec snapshot expectedCount)]
  match env.addTarget2Outcome with
  | Except.error e => (Except.error (RunError.collaborator e), ev)
  | Except.ok _ =>
    let ev := ev ++ [Event.log LogMsg.waitingForExistenceFilter,
                     Event.getExistenceFilterCalled 2, Event.getInitialSnapshotCalled 2]
    match env.firstResolved with
    | FirstResolved.filter (Except.error e) => (Except.error (RunError.collaborator e), ev)
    | FirstResolved.filter (Except.ok f) =>
        let ev := ev ++ [Event.log (LogMsg.gotExistenceFilter f)] ++
          (match getBloomFilterNumBits (some f) with
           | some bloomFilterNumBits => [Event.log (LogMsg.bloomFilterSizeBits bloomFilterNumBits)]
           | none => [])
        awaitSnapshotTail ev env
    | FirstResolved.snapshot =>
        match env.snapshot2 with
        | Except.error e => (Except.error (RunError.collaborator e), ev)
        | Except.ok _ =>
            awaitSnapshotTail (ev ++ [Event.log LogMsg.didNotGetExistenceFilter]) env

/-- Embedding of `BloomFilterWatchTest.run` (lines 85-96): create documents,
take and assert the initial snapshot, delete the trailing slice, pause, and
resume. -/
def BloomFilterWatchTest.run (self : BloomFilterWatchTest) (env : Env) :
    Except RunError Unit × List Event :=
  match self.createDocuments env with
  | (Except.error e, ev1) => (Except.error e, ev1)
  | (Except.ok createdDocumentRefs, ev1) =>
    match self.startTarget env with
    | (Except.error e, ev2) => (Except.error e, ev1 ++ ev2)
    | (Except.ok snapshot, ev2) =>
      match assertDocumentsInSnapshot snapshot createdDocumentRefs with
      | Except.error e => (Except.error e, ev1 ++ ev2)
      | Except.ok _ =>
        let documentRefsToDelete :=
          arraySlice createdDocumentRefs
            ((createdDocumentRefs.length : Int) - self.documentDeleteCount)
        match self.deleteDocuments documentRefsToDelete env with
        | (Except.error e, ev3) => (Except.error e, ev1 ++ ev2 ++ ev3)
        | (Except.ok _, ev3) =>
          let ev4 := self.pause 10
          match self.resumeWatchStream snapshot none env with
          | (res, ev5) => (res, ev1 ++ ev2 ++ ev3 ++ ev4 ++ ev5)

/-- The effective `documentCreateCount` of `runTest` (`?? 10`). -/
def resolvedCreateCount (documentCreateCount_ : Option Int) : Int :=
  documentCreateCount_.getD 10

/-- The effective `documentDeleteCount` of `runTest`
(`?? Math.ceil(documentCreateCount / 2)`). -/
def resolvedDeleteCount (documentCreateCount_ documentDeleteCount_ : Option Int) : Int :=
  documentDeleteCount_.getD (ceilHalf (resolvedCreateCount documentCreateCount_))

/-- The effective collection id of `runTest`
(a fresh `bloom_filter_watch_test_` name unless one is supplied). -/
def resolvedCollectionId (collectionId_ : Option String) (env : Env) : String :=
  collectionId_.getD ("bloom_filter_watch_test_" ++ env.autoCollectionId)

/-- The `BloomFilterWatchTest` instance `runTest` constructs. -/
def mkBloomFilterWatchTest (projectId host : String) (ssl : Bool)
    (documentCreateCount documentDeleteCount : Int) (collectionId : String)
    (env : Env) : BloomFilterWatchTest :=
  { projectId := projectId
    host := host
    ssl := ssl
    documentCreateCount := documentCreateCount
    documentDeleteCount := documentDeleteCount
    collectionId := collectionId
    uniqueId := env.uniqueId }

/-- Embedding of `runTest` (lines 39-64): resolve defaults, validate the
counts, create and open the watch stream, run the probe body in a
try/finally that always closes the stream.  A rejected `close()` in the
finally block replaces the body's outcome, as in TS. -/
def runTest (projectId host : String) (ssl : Bool)
    (documentCreateCount_ documentDeleteCount_ : Option Int)
    (collectionId_ : Option String) (env : Env) :
    Except RunError Unit × List Event :=
  let ev0 := [Event.log LogMsg.testStarted]
  let collectionId := resolvedCollectionId collectionId_ env
  let documentCreateCount := resolvedCreateCount documentCreateCount_
  let documentDeleteCount := resolvedDeleteCount documentCreateCount_ documentDeleteCount_
  if documentCreateCount < documentDeleteCount then
    (Except.error (RunError.invalidRunTestOptions
      ("documentDeleteCount (" ++ toString documentDeleteCount ++
       ") must be less than or equal to documentCreateCount (" ++
       toString documentCreateCount ++ ")")), ev0)
  else
    let ev1 := ev0 ++ [Event.log (LogMsg.creatingWatchStream projectId host),
                       Event.createWatchStreamCalled]
    let testRunner := mkBloomFilterWatchTest projectId host ssl
      documentCreateCount documentDeleteCount collectionId env
    let ev2 := ev1 ++ [Event.openCalled]
    match env.openOutcome with
    | Except.error e => (Except.error (RunError.collaborator e), ev2)
    | Except.ok _ =>
      let runOutcome := testRunner.run env
      let ev3 := ev2 ++ runOutcome.2 ++ [Event.log LogMsg.closingWatchStream, Event.closeCalled]
      match env.closeOutcome with
      | Except.error e => (Except.error (RunError.collaborator e), ev3)
      | Except.ok _ =>
        match runOutcome.1 with
        | Except.error e => (Except.error e, ev3)
        | Except.ok _ => (Except.ok (), ev3 ++ [Event.log LogMsg.testCompleted])

/-- The default offline delay of `Delay` (`OFFLINE_DELAY_MS_` in delay.ts). -/
def OFFLINE_DELAY_MS_ : Int := 5000

/-- The state of a constructed `Delay` (delay.ts lines 21-40): the two
bounds plus the mobile-environment flag captured at construction time. -/
structure Delay where
  shortDelay : Int
  longDelay : Int
  isMobile : Bool
deriving DecidableEq

/-- The `Delay` constructor (delay.ts lines 31-40): throws when
`shortDelay > longDelay`, otherwise captures the environment's mobile flag
(`isMobileCordova() || isReactNative()`, passed in as `isMobile`). -/
def makeDelay (shortDelay longDelay : Int) (isMobile : Bool) : Except String Delay :=
  if longDelay < shortDelay then
    Except.error "Short delay should be less than long delay!"
  else
    Except.ok { shortDelay := shortDelay, longDelay := longDelay, isMobile := isMobile }

/-- Embedding of `Delay.get` (delay.ts lines 42-52), with the environment's
`isOnline()` passed in. -/
def Delay.get (self : Delay) (isOnline : Bool) : Int :=
  if !isOnline then
    min OFFLINE_DELAY_MS_ self.shortDelay
  else if self.isMobile then self.longDelay else self.shortDelay

/-- A concrete, fully successful collaborator environment used to
instantiate theorems: two documents are created, the initial snapshot holds
both their paths, and the resume race is won by the snapshot promise. -/
def envDefault : Env :=
  { uniqueId := "uid"
    autoCollectionId := "auto"
    openOutcome := Except.ok ()
    createDocsOutcome := Except.ok ["a", "b"]
    addTarget1Outcome := Except.ok ()
    initialSnapshot1 := Except.ok ⟨["c/b", "c/a"]⟩
    removeTarget1Outcome := Except.ok ()
    deleteDocsOutcome := Except.ok ()
    addTarget2Outcome := Except.ok ()
    firstResolved := FirstResolved.snapshot
    snapshot2 := Except.ok ⟨["c/a"]⟩
    closeOutcome := Except.ok () }

/-- A concrete environment in which the existence-filter promise wins the
resume race with a 2-byte bitmap and padding 1. -/
def envFilterFirst : Env :=
  { envDefault with firstResolved :=
      FirstResolved.filter (Except.ok ⟨some ⟨some ⟨some ("ab"), some 1⟩⟩⟩) }

/-! ## Helper lemmas -/

/-- Unfolding of the lexicographic comparison on two nonempty char lists. -/
theorem charListLeB_cons_iff (a b : Char) (as bs : List Char) :
    charListLeB (a :: as) (b :: bs) = true ↔
      (a < b ∨ (a = b ∧ charListLeB as bs = true)) := by
  simp only [charListLeB]
  rcases lt_trichotomy a b with h | h | h
  · simp [h]
  · subst h
    simp [lt_irrefl]
  · rw [if_neg (lt_asymm h), if_pos h]
    constructor
    · intro hfalse
      exact absurd hfalse (by simp)
    · rintro (h1 | ⟨h1, _⟩)
      · exact absurd h1 (lt_asymm h)
      · exact absurd h1 h.ne'

/-- The lexicographic comparison is total. -/
theorem charListLeB_total :
    ∀ as bs : List Char, charListLeB as bs = true ∨ charListLeB bs as = true
  | [], _ => Or.inl rfl
  | _ :: _, [] => Or.inr rfl
  | a :: as, b :: bs => by
    rw [charListLeB_cons_iff, charListLeB_cons_iff]
    rcases lt_trichotomy a b with h | h | h
    · exact Or.inl (Or.inl h)
    · subst h
      rcases charListLeB_total as bs with h2 | h2
      · exact Or.inl (Or.inr ⟨rfl, h2⟩)
      · exact Or.inr (Or.inr ⟨rfl, h2⟩)
    · exact Or.inr (Or.inl h)

/-- The lexicographic comparison is transitive. -/
theorem charListLeB_trans :
    ∀ as bs cs : List Char, charListLeB as bs = true → charListLeB bs cs = true →
      charListLeB as cs = true
  | [], _, _, _, _ => rfl
  | _ :: _, [], _, hab, _ => by simp [charListLeB] at hab
  | _ :: _, _ :: _, [], _, hbc => by simp [charListLeB] at hbc
  | a :: as, b :: bs, c :: cs, hab, hbc => by
    rw [charListLeB_cons_iff] at hab hbc ⊢
    rcases hab with h1 | ⟨h1, hr1⟩
    · rcases hbc with h2 | ⟨h2, _⟩
      · exact Or.inl (lt_trans h1 h2)
      · subst h2
        exact Or.inl h1
    · subst h1
      rcases hbc with h2 | ⟨h2, hr2⟩
      · exact Or.inl h2
      · subst h2
        exact Or.inr ⟨rfl, charListLeB_trans as bs cs hr1 hr2⟩

/-- The lexicographic comparison is antisymmetric. -/
theorem charListLeB_antisymm :
    ∀ as bs : List Char, charListLeB as bs = true → charListLeB bs as = true →
      as = bs
  | [], [], _, _ => rfl
  | [], _ :: _, _, hba => by simp [charListLeB] at hba
  | _ :: _, [], hab, _ => by simp [charListLeB] at hab
  | a :: as, b :: bs, hab, hba => by
    rw [charListLeB_cons_iff] at hab hba
    rcases hab with h1 | ⟨h1, hr1⟩
    · rcases hba with h2 | ⟨h2, _⟩
      · exact absurd h2 (lt_asymm h1)
      · exact absurd h1 (by simp [h2])
    · subst h1
      rcases hba with h2 | ⟨_, hr2⟩
      · exact absurd h2 (lt_irrefl a)
      · rw [charListLeB_antisymm as bs hr1 hr2]

/-- The string order is total. -/
theorem strLe_total (a b : String) : strLe a b ∨ strLe b a :=
  charListLeB_total a.data b.data

/-- The string order is transitive. -/
theorem strLe_trans {a b c : String} (h1 : strLe a b) (h2 : strLe b c) : strLe a c :=
  charListLeB_trans a.data b.data c.data h1 h2

/-- The string order is antisymmetric. -/
theorem strLe_antisymm {a b : String} (h1 : strLe a b) (h2 : strLe b a) : a = b := by
  cases a with
  | mk da =>
    cases b with
    | mk db =>
      exact congrArg String.mk (charListLeB_antisymm da db h1 h2)

/-- Sorting two string lists yields the same result exactly when they are
permutations of each other; this is what makes the probe's sorted
comparisons order-independent. -/
theorem sortStrings_eq_iff_perm (a b : List String) :
    sortStrings a = sortStrings b ↔ a.Perm b := by
  haveI : IsTotal String strLe := ⟨strLe_total⟩
  haveI : IsTrans String strLe := ⟨fun _ _ _ => strLe_trans⟩
  haveI : IsAntisymm String strLe := ⟨fun _ _ => strLe_antisymm⟩
  constructor
  · intro h
    simp only [sortStrings] at h
    have pa := List.perm_insertionSort strLe a
    have pb := List.perm_insertionSort strLe b
    rw [h] at pa
    exact pa.symm.trans pb
  · intro h
    exact List.eq_of_perm_of_sorted
      (((List.perm_insertionSort strLe a).trans h).trans
        (List.perm_insertionSort strLe b).symm)
      (List.sorted_insertionSort strLe a) (List.sorted_insertionSort strLe b)

/-- The Step-2 assertion succeeds exactly when the snapshot's ids are a
permutation of the expected ids. -/
theorem assertDocumentsInSnapshot_ok_iff (snapshot : TargetSnapshot)
    (expected : List String) :
    assertDocumentsInSnapshot snapshot expected = Except.ok () ↔
      (snapshot.documentPaths.map documentIdFromDocumentPath).Perm expected := by
  rw [← sortStrings_eq_iff_perm]
  simp only [assertDocumentsInSnapshot, assertDeepEqual]
  split
  case isTrue h => simp [h]
  case isFalse h => simp [h]

/-- When the Step-2 assertion fails, it fails with the assertion error. -/
theorem assertDocumentsInSnapshot_error_iff (snapshot : TargetSnapshot)
    (expected : List String) :
    assertDocumentsInSnapshot snapshot expected = Except.error RunError.assertionFailed ↔
      ¬ (snapshot.documentPaths.map documentIdFromDocumentPath).Perm expected := by
  rw [← sortStrings_eq_iff_perm]
  simp only [assertDocumentsInSnapshot, assertDeepEqual]
  split
  case isTrue h => simp [h]
  case isFalse h => simp [h]

/-! ## Claim theorems: existence-filter bit length -/

/-- C1: for every existence filter input, `getBloomFilterNumBits` returns
null when the padding is outside [0,7] and when `unchangedNames` (or the
filter itself) is missing; otherwise it returns the bitmap's byte length
times 8 minus the padding.  Concretely, a 4-byte bitmap with padding 3
yields 29, padding 8 yields null, and a missing filter yields null. -/
theorem claim1_bit_length_decoding :
    (getBloomFilterNumBits none = none) ∧
    (∀ e : ExistenceFilter, e.unchangedNames = none →
        getBloomFilterNumBits (some e) = none) ∧
    (∀ e un, e.unchangedNames = some un →
        (bloomPadding un < 0 ∨ 7 < bloomPadding un) →
        getBloomFilterNumBits (some e) = none) ∧
    (∀ e un, e.unchangedNames = some un →
        0 ≤ bloomPadding un → bloomPadding un ≤ 7 →
        getBloomFilterNumBits (some e) =
          some (((bloomBitmap un).length : Int) * 8 - bloomPadding un)) ∧
    (∀ bm : String, bm.length = 4 →
        getBloomFilterNumBits (some ⟨some ⟨some ⟨some bm, some 3⟩⟩⟩) = some 29) ∧
    (∀ bm : String,
        getBloomFilterNumBits (some ⟨some ⟨some ⟨some bm, some 8⟩⟩⟩) = none) := by
  refine ⟨rfl, ?_, ?_, ?_, ?_, ?_⟩
  · intro e h
    simp [getBloomFilterNumBits, h]
  · intro e un h hp
    simp only [getBloomFilterNumBits, Option.some_bind, h, bloomPadding] at *
    rw [if_pos hp]
  · intro e un h hp0 hp7
    simp only [getBloomFilterNumBits, Option.some_bind, h, bloomPadding, bloomBitmap] at *
    rw [if_neg (by omega)]
  · intro bm hbm
    simp only [getBloomFilterNumBits, Option.some_bind]
    norm_num [hbm]
  · intro bm
    simp only [getBloomFilterNumBits, Option.some_bind]
    norm_num

/-- Witness for C1: at a concrete 4-byte bitmap with padding 3 the theorem
yields 29. -/
theorem claim1_bit_length_decoding_witness :
    getBloomFilterNumBits (some ⟨some ⟨some ⟨some ("abcd"), some 3⟩⟩⟩) = some 29 :=
  claim1_bit_length_decoding.2.2.2.2.1 ("abcd") rfl

/-- C3 counterexample: an existence filter whose `unchangedNames` is present
but whose `bits` field is missing decodes to 0, not to null, so the function
does not return null on every missing nested field. -/
theorem claim3_counterexample :
    getBloomFilterNumBits (some ⟨some ⟨none⟩⟩) = some 0 ∧
    getBloomFilterNumBits (some ⟨some ⟨none⟩⟩) ≠ none := by
  constructor
  · rfl
  · intro h
    exact Option.noConfusion h

/-- C3 as amended: `getBloomFilterNumBits` is a total function (it cannot
raise), and it returns null exactly when the filter or its `unchangedNames`
field is missing or the effective padding is outside [0,7]; a missing
`bits`, `bitmap` or `padding` field falls back to the empty bitmap and
padding 0 instead of null. -/
theorem claim3_amended_none_characterization (ef : Option ExistenceFilter) :
    getBloomFilterNumBits ef = none ↔
      (ef.bind ExistenceFilter.unchangedNames = none ∨
       ∃ un, ef.bind ExistenceFilter.unchangedNames = some un ∧
         (bloomPadding un < 0 ∨ 7 < bloomPadding un)) := by
  cases h : ef.bind ExistenceFilter.unchangedNames with
  | none =>
      simp only [getBloomFilterNumBits, h]
      simp
  | some un =>
      simp only [getBloomFilterNumBits, h, bloomPadding]
      split
      case isTrue hc => simp_all [bloomPadding]
      case isFalse hc => simp_all [bloomPadding]

/-- C9: when `unchangedNames` is present but `bits` is missing, the function
substitutes the empty bitmap and padding 0 and returns 0, not null; null
arises only from a missing `unchangedNames` or an out-of-range padding. -/
theorem claim9_missing_bits_yields_zero (e : ExistenceFilter) :
    (∀ un, e.unchangedNames = some un → un.bits = none →
        getBloomFilterNumBits (some e) = some 0) ∧
    (getBloomFilterNumBits (some e) = none ↔
      (e.unchangedNames = none ∨
       ∃ un, e.unchangedNames = some un ∧
         (bloomPadding un < 0 ∨ 7 < bloomPadding un))) := by
  constructor
  · intro un h hb
    simp [getBloomFilterNumBits, h, hb]
  · cases h : e.unchangedNames with
    | none =>
        simp only [getBloomFilterNumBits, Option.some_bind, h]
        simp
    | some un =>
        simp only [getBloomFilterNumBits, Option.some_bind, h, bloomPadding]
        split
        case isTrue hc => simp_all [bloomPadding]
        case isFalse hc => simp_all [bloomPadding]

/-- Witness for C9: a filter with `unchangedNames` present and `bits`
missing decodes to 0. -/
theorem claim9_missing_bits_yields_zero_witness :
    getBloomFilterNumBits (some ⟨some ⟨none⟩⟩) = some 0 :=
  (claim9_missing_bits_yields_zero ⟨some ⟨none⟩⟩).1 ⟨none⟩ rfl rfl

/-! ## Claim theorems: Delay -/

/-- C10: a `Delay` constructs successfully only when
`shortDelay ≤ longDelay` (otherwise the constructor throws), and for every
constructed `Delay` the value of `get` never exceeds `longDelay`: offline it
is `min(5000, shortDelay)`, online it is `longDelay` on mobile environments
and `shortDelay` otherwise. -/
theorem claim10_delay_invariant (s l : Int) (m : Bool) :
    (l < s → makeDelay s l m =
        Except.error "Short delay should be less than long delay!") ∧
    (∀ d, makeDelay s l m = Except.ok d →
      d.shortDelay ≤ d.longDelay ∧
      (∀ isOnline, d.get isOnline ≤ d.longDelay) ∧
      d.get false = min OFFLINE_DELAY_MS_ d.shortDelay ∧
      (d.isMobile = true → d.get true = d.longDelay) ∧
      (d.isMobile = false → d.get true = d.shortDelay)) := by
  constructor
  · intro h
    simp [makeDelay, h]
  · intro d hd
    unfold makeDelay at hd
    split at hd
    case isTrue => exact absurd hd (by simp)
    case isFalse hls =>
      cases hd
      refine ⟨show s ≤ l by omega, ?_, ?_, ?_, ?_⟩
      · intro isOnline
        cases isOnline with
        | false =>
            show Delay.get ⟨s, l, m⟩ false ≤ l
            simp only [Delay.get, Bool.not_false, if_true]
            exact le_trans (min_le_right _ _) (by omega)
        | true =>
            show Delay.get ⟨s, l, m⟩ true ≤ l
            cases m with
            | false => simp [Delay.get]; omega
            | true => simp [Delay.get]
      · simp [Delay.get]
      · intro hm
        simp only at hm
        simp [Delay.get, hm]
      · intro hm
        simp only at hm
        simp [Delay.get, hm]

/-- Witness for C10: the concrete delay (1, 2) off mobile, offline. -/
theorem claim10_delay_invariant_witness :
    Delay.get ⟨1, 2, false⟩ false = min OFFLINE_DELAY_MS_ 1 :=
  (((claim10_delay_invariant 1 2 false).2 ⟨1, 2, false⟩ rfl).2.2).1

/-! ## Trace-shape helper lemmas -/

/-- The document-creation step never invokes `close`. -/
theorem closeCalled_not_mem_createDocuments (self : BloomFilterWatchTest) (env : Env) :
    Event.closeCalled ∉ (self.createDocuments env).2 := by
  simp only [BloomFilterWatchTest.createDocuments]
  split <;> simp

/-- The initial-observation step never invokes `close`. -/
theorem closeCalled_not_mem_startTarget (self : BloomFilterWatchTest) (env : Env) :
    Event.closeCalled ∉ (self.startTarget env).2 := by
  simp only [BloomFilterWatchTest.startTarget]
  split
  · simp
  · split
    · simp
    · split <;> simp

/-- The deletion step never invokes `close`. -/
theorem closeCalled_not_mem_deleteDocuments (self : BloomFilterWatchTest)
    (refs : List String) (env : Env) :
    Event.closeCalled ∉ (self.deleteDocuments refs env).2 := by
  simp only [BloomFilterWatchTest.deleteDocuments]
  split <;> simp

/-- The pause step never invokes `close`. -/
theorem closeCalled_not_mem_pause (self : BloomFilterWatchTest) (n : Int) :
    Event.closeCalled ∉ self.pause n := by
  simp [BloomFilterWatchTest.pause]

/-- The snapshot-await tail adds no `close` invocation. -/
theorem closeCalled_not_mem_awaitSnapshotTail (ev : List Event) (env : Env)
    (h : Event.closeCalled ∉ ev) :
    Event.closeCalled ∉ (awaitSnapshotTail ev env).2 := by
  simp only [awaitSnapshotTail]
  split <;> simp_all

/-- The resume step never invokes `close`. -/
theorem closeCalled_not_mem_resumeWatchStream (self : BloomFilterWatchTest)
    (snapshot : TargetSnapshot) (options : Option ResumeOptions) (env : Env) :
    Event.closeCalled ∉ (self.resumeWatchStream snapshot options env).2 := by
  simp only [BloomFilterWatchTest.resumeWatchStream]
  split
  · simp
  · split
    · simp
    · apply closeCalled_not_mem_awaitSnapshotTail
      split <;> simp
    · split
      · simp
      · apply closeCalled_not_mem_awaitSnapshotTail
        simp

/-- The probe body (`BloomFilterWatchTest.run`) never invokes `close`; only
the `finally` block of `runTest` does. -/
theorem closeCalled_not_mem_run (self : BloomFilterWatchTest) (env : Env) :
    Event.closeCalled ∉ (self.run env).2 := by
  simp only [BloomFilterWatchTest.run]
  split
  case h_1 e ev1 heq =>
    have := closeCalled_not_mem_createDocuments self env
    rw [heq] at this
    exact this
  case h_2 refs ev1 heq1 =>
    have h1 := closeCalled_not_mem_createDocuments self env
    rw [heq1] at h1
    split
    case h_1 e ev2 heq2 =>
      have h2 := closeCalled_not_mem_startTarget self env
      rw [heq2] at h2
      simp_all
    case h_2 snapshot ev2 heq2 =>
      have h2 := closeCalled_not_mem_startTarget self env
      rw [heq2] at h2
      split
      case h_1 e heq3 => simp_all
      case h_2 heq3 =>
        split
        case h_1 e ev3 heq4 =>
          have h3 := closeCalled_not_mem_deleteDocuments self
            (arraySlice refs ((refs.length : Int) - self.documentDeleteCount)) env
          rw [heq4] at h3
          simp_all
        case h_2 ev3 heq4 =>
          have h3 := closeCalled_not_mem_deleteDocuments self
            (arraySlice refs ((refs.length : Int) - self.documentDeleteCount)) env
          rw [heq4] at h3
          have h4 := closeCalled_not_mem_pause self 10
          have h5 := closeCalled_not_mem_resumeWatchStream self snapshot none env
          simp_all

/-! ## Claim theorems: runTest validation and cleanup -/

/-- C2: whenever the resolved `documentDeleteCount` exceeds the resolved
`documentCreateCount`, `runTest` fails with the configuration error
(`InvalidRunTestOptionsError`) before any side effect: the trace holds only
the start log — no document is created or deleted and the watch stream is
never created or opened. -/
theorem claim2_precondition_validation (projectId host : String) (ssl : Bool)
    (documentCreateCount_ documentDeleteCount_ : Option Int)
    (collectionId_ : Option String) (env : Env)
    (h : resolvedCreateCount documentCreateCount_ <
      resolvedDeleteCount documentCreateCount_ documentDeleteCount_) :
    (∃ msg, (runTest projectId host ssl documentCreateCount_ documentDeleteCount_
        collectionId_ env).1 = Except.error (RunError.invalidRunTestOptions msg)) ∧
    (runTest projectId host ssl documentCreateCount_ documentDeleteCount_
        collectionId_ env).2 = [Event.log LogMsg.testStarted] := by
  constructor
  · refine ⟨"documentDeleteCount (" ++
      toString (resolvedDeleteCount documentCreateCount_ documentDeleteCount_) ++
      ") must be less than or equal to documentCreateCount (" ++
      toString (resolvedCreateCount documentCreateCount_) ++ ")", ?_⟩
    simp only [runTest]
    rw [if_pos h]
  · simp only [runTest]
    rw [if_pos h]

/-- Witness for C2: creating 1 and deleting 2 documents is rejected with an
event-free trace. -/
theorem claim2_precondition_validation_witness :
    (runTest ("p") ("h") true (some 1) (some 2) none envDefault).2 =
      [Event.log LogMsg.testStarted] :=
  (claim2_precondition_validation ("p") ("h") true (some 1) (some 2) none envDefault
    (by decide)).2

/-- C7: whenever the guard passes and the watch stream opens successfully,
`runTest` invokes `close` exactly once — whether the probe body succeeds or
fails — and a body error still propagates to the caller when `close`
succeeds. -/
theorem claim7_close_called_exactly_once (projectId host : String) (ssl : Bool)
    (documentCreateCount_ documentDeleteCount_ : Option Int)
    (collectionId_ : Option String) (env : Env)
    (hguard : ¬ resolvedCreateCount documentCreateCount_ <
        resolvedDeleteCount documentCreateCount_ documentDeleteCount_)
    (hopen : env.openOutcome = Except.ok ()) :
    ((runTest projectId host ssl documentCreateCount_ documentDeleteCount_
        collectionId_ env).2.count Event.closeCalled = 1) ∧
    (∀ e, ((mkBloomFilterWatchTest projectId host ssl
          (resolvedCreateCount documentCreateCount_)
          (resolvedDeleteCount documentCreateCount_ documentDeleteCount_)
          (resolvedCollectionId collectionId_ env) env).run env).1 = Except.error e →
        env.closeOutcome = Except.ok () →
        (runTest projectId host ssl documentCreateCount_ documentDeleteCount_
          collectionId_ env).1 = Except.error e) ∧
    (((mkBloomFilterWatchTest projectId host ssl
          (resolvedCreateCount documentCreateCount_)
          (resolvedDeleteCount documentCreateCount_ documentDeleteCount_)
          (resolvedCollectionId collectionId_ env) env).run env).1 = Except.ok () →
        env.closeOutcome = Except.ok () →
        (runTest projectId host ssl documentCreateCount_ documentDeleteCount_
          collectionId_ env).1 = Except.ok ()) := by
  have hrun0 : ∀ self : BloomFilterWatchTest,
      ((self.run env).2.count Event.closeCalled) = 0 :=
    fun self => List.count_eq_zero_of_not_mem (closeCalled_not_mem_run self env)
  refine ⟨?_, ?_, ?_⟩
  · simp only [runTest]
    rw [if_neg hguard]
    simp only [hopen]
    split
    case h_1 e heq =>
      simp [List.count_append, hrun0]
    case h_2 heq =>
      split <;> simp [List.count_append, hrun0]
  · intro e hrun hclose
    simp only [runTest]
    rw [if_neg hguard]
    simp only [hopen, hclose, hrun]
  · intro hrun hclose
    simp only [runTest]
    rw [if_neg hguard]
    simp only [hopen, hclose, hrun]

/-- Witness for C7: a full successful run invokes `close` exactly once. -/
theorem claim7_close_called_exactly_once_witness :
    (runTest ("p") ("h") true (some 2) (some 1) none envDefault).2.count
      Event.closeCalled = 1 :=
  (claim7_close_called_exactly_once ("p") ("h") true (some 2) (some 1) none envDefault
    (by decide) rfl).1

/-- Closed form of the document-creation step when the accessor succeeds. -/
theorem createDocuments_eq_ok (self : BloomFilterWatchTest) (env : Env)
    (refs : List String) (hcd : env.createDocsOutcome = Except.ok refs) :
    self.createDocuments env =
      (Except.ok refs,
       [Event.log (LogMsg.creatingDocuments self.documentCreateCount self.collectionId),
        Event.createDocumentsCalled self.documentCreateCount DOCUMENT_DATA_KEY self.uniqueId,
        Event.log (LogMsg.createdDocuments self.documentCreateCount self.collectionId
          (sortStrings refs))]) := by
  simp [BloomFilterWatchTest.createDocuments, hcd]

/-- Closed form of the initial-observation step when all three watch-stream
calls succeed. -/
theorem startTarget_eq_ok (self : BloomFilterWatchTest) (env : Env)
    (snapshot : TargetSnapshot)
    (h1 : env.addTarget1Outcome = Except.ok ())
    (h2 : env.initialSnapshot1 = Except.ok snapshot)
    (h3 : env.removeTarget1Outcome = Except.ok ()) :
    self.startTarget env =
      (Except.ok snapshot,
       [Event.log LogMsg.addingTarget, Event.addTargetCalled self.target1Spec,
        Event.log LogMsg.waitingForSnapshot, Event.getInitialSnapshotCalled 1,
        Event.log (LogMsg.gotSnapshot
          ((((sortStrings snapshot.documentPaths).map documentIdFromDocumentPath).length : Int))
          ((sortStrings snapshot.documentPaths).map documentIdFromDocumentPath)),
        Event.log LogMsg.removingTarget, Event.removeTargetCalled 1]) := by
  simp [BloomFilterWatchTest.startTarget, h1, h2, h3]

/-- Every event of the initial-observation trace is a log, the target-1
registration, the target-1 snapshot request, or the target-1 removal. -/
theorem mem_startTarget (self : BloomFilterWatchTest) (env : Env) (e : Event) :
    e ∈ (self.startTarget env).2 →
      (∃ m, e = Event.log m) ∨ e = Event.addTargetCalled self.target1Spec ∨
      e = Event.getInitialSnapshotCalled 1 ∨ e = Event.removeTargetCalled 1 := by
  simp only [BloomFilterWatchTest.startTarget]
  split
  · intro h
    simp at h
    aesop
  · split
    · intro h
      simp at h
      aesop
    · split <;> intro h <;> simp at h <;> aesop

/-- A deletion invocation occurs in the deletion step's trace exactly for
the references passed to it. -/
theorem deleteCalled_mem_deleteDocuments (self : BloomFilterWatchTest)
    (refs : List String) (env : Env) (ids : List String) :
    Event.deleteDocumentsCalled ids ∈ (self.deleteDocuments refs env).2 ↔ ids = refs := by
  simp only [BloomFilterWatchTest.deleteDocuments]
  split <;> simp

/-- Every event of the snapshot-await tail is either from its prefix or a
log. -/
theorem mem_awaitSnapshotTail (ev : List Event) (env : Env) (e : Event) :
    e ∈ (awaitSnapshotTail ev env).2 →
      e ∈ ev ∨ e = Event.log LogMsg.waitingForSnapshot ∨
      ∃ c ids, e = Event.log (LogMsg.gotSnapshot c ids) := by
  simp only [awaitSnapshotTail]
  split <;> intro h <;> simp at h <;> aesop

/-- Every event of the resume step's trace is a log, the target-2
registration (with the effective expected count), the existence-filter
request, or the target-2 snapshot request. -/
theorem mem_resumeWatchStream (self : BloomFilterWatchTest)
    (snapshot : TargetSnapshot) (options : Option ResumeOptions) (env : Env) (e : Event) :
    e ∈ (self.resumeWatchStream snapshot options env).2 →
      (∃ m, e = Event.log m) ∨
      e = Event.addTargetCalled (self.target2Spec snapshot
        ((options.bind ResumeOptions.expectedCount).getD
          (snapshot.documentPaths.length : Int))) ∨
      e = Event.getExistenceFilterCalled 2 ∨ e = Event.getInitialSnapshotCalled 2 := by
  simp only [BloomFilterWatchTest.resumeWatchStream]
  split
  · intro h
    simp at h
    aesop
  · split
    · intro h
      simp at h
      aesop
    · intro h
      rcases mem_awaitSnapshotTail _ env e h with h2 | h2
      · simp at h2
        aesop
      · aesop
    · split
      · intro h
        simp at h
        aesop
      · intro h
        rcases mem_awaitSnapshotTail _ env e h with h2 | h2
        · simp at h2
          aesop
        · aesop

/-! ## Claim theorems: probe steps -/

/-- C4: the Step-2 assertion succeeds exactly when the initial snapshot's
document identifiers are, order-independently, exactly the created
identifiers (both sides are sorted before comparison, so equality of the
sorted lists is equivalence up to permutation); and under a successful
populate/observe environment the probe proceeds to the deletion step when
the sets agree, while a mismatch fails the run with the assertion error and
prevents any deletion call. -/
theorem claim4_step2_assertion :
    (∀ (snapshot : TargetSnapshot) (expected : List String),
      assertDocumentsInSnapshot snapshot expected = Except.ok () ↔
        (snapshot.documentPaths.map documentIdFromDocumentPath).Perm expected) ∧
    (∀ (self : BloomFilterWatchTest) (env : Env) (refs : List String)
        (snapshot : TargetSnapshot),
      env.createDocsOutcome = Except.ok refs →
      env.addTarget1Outcome = Except.ok () →
      env.initialSnapshot1 = Except.ok snapshot →
      env.removeTarget1Outcome = Except.ok () →
      ((¬ (snapshot.documentPaths.map documentIdFromDocumentPath).Perm refs →
          (self.run env).1 = Except.error RunError.assertionFailed ∧
          ∀ ids, Event.deleteDocumentsCalled ids ∉ (self.run env).2) ∧
       ((snapshot.documentPaths.map documentIdFromDocumentPath).Perm refs →
          Event.deleteDocumentsCalled
              (arraySlice refs ((refs.length : Int) - self.documentDeleteCount)) ∈
            (self.run env).2))) := by
  refine ⟨assertDocumentsInSnapshot_ok_iff, ?_⟩
  intro self env refs snapshot hcd h1 h2 h3
  constructor
  · intro hperm
    have hassert : assertDocumentsInSnapshot snapshot refs =
        Except.error RunError.assertionFailed :=
      (assertDocumentsInSnapshot_error_iff snapshot refs).mpr hperm
    constructor
    · simp only [BloomFilterWatchTest.run, createDocuments_eq_ok self env refs hcd,
        startTarget_eq_ok self env snapshot h1 h2 h3, hassert]
    · intro ids
      simp only [BloomFilterWatchTest.run, createDocuments_eq_ok self env refs hcd,
        startTarget_eq_ok self env snapshot h1 h2 h3, hassert]
      simp
  · intro hperm
    have hassert : assertDocumentsInSnapshot snapshot refs = Except.ok () :=
      (assertDocumentsInSnapshot_ok_iff snapshot refs).mpr hperm
    simp only [BloomFilterWatchTest.run, createDocuments_eq_ok self env refs hcd,
      startTarget_eq_ok self env snapshot h1 h2 h3, hassert]
    have hm : Event.deleteDocumentsCalled
        (arraySlice refs ((refs.length : Int) - self.documentDeleteCount)) ∈
        (self.deleteDocuments
          (arraySlice refs ((refs.length : Int) - self.documentDeleteCount)) env).2 :=
      (deleteCalled_mem_deleteDocuments self _ env _).mpr rfl
    split
    case h_1 e ev3 heq =>
      rw [heq] at hm
      simp_all
    case h_2 ev3 heq =>
      rw [heq] at hm
      simp_all

/-- Witness for C4: with two created documents and a matching snapshot the
assertion accepts, and the deletion of the trailing slice is invoked. -/
theorem claim4_step2_assertion_witness :
    Event.deleteDocumentsCalled
        (arraySlice ["a", "b"] ((["a", "b"].length : Int) - 1)) ∈
      ((mkBloomFilterWatchTest ("p") ("h") true 2 1
          (resolvedCollectionId none envDefault) envDefault).run envDefault).2 :=
  ((claim4_step2_assertion.2 (mkBloomFilterWatchTest ("p") ("h") true 2 1
      (resolvedCollectionId none envDefault) envDefault) envDefault
    ["a", "b"] ⟨["c/b", "c/a"]⟩ rfl rfl rfl rfl).2 (by decide))

/-- C5: for `d` in range, the slice `createdDocumentRefs.slice(n - d)` is
exactly the suffix of length `d` of the creation-order list, leaving the
first `n - d` references untouched; and in any run whose creation step
returned `refs`, every deletion call deletes exactly that slice. -/
theorem claim5_deletes_last_d :
    (∀ (refs : List String) (d : Int), 0 ≤ d → d ≤ (refs.length : Int) →
      arraySlice refs ((refs.length : Int) - d) = refs.drop (refs.length - d.toNat) ∧
      (arraySlice refs ((refs.length : Int) - d)).length = d.toNat ∧
      refs.take (refs.length - d.toNat) ++
        arraySlice refs ((refs.length : Int) - d) = refs) ∧
    (∀ (self : BloomFilterWatchTest) (env : Env) (refs : List String),
      env.createDocsOutcome = Except.ok refs →
      ∀ ids, Event.deleteDocumentsCalled ids ∈ (self.run env).2 →
        ids = arraySlice refs ((refs.length : Int) - self.documentDeleteCount)) := by
  constructor
  · intro refs d h0 hlen
    have hdrop : arraySlice refs ((refs.length : Int) - d) =
        refs.drop (refs.length - d.toNat) := by
      unfold arraySlice
      rw [if_neg (by omega)]
      congr 1
      omega
    refine ⟨hdrop, ?_, ?_⟩
    · rw [hdrop, List.length_drop]
      omega
    · rw [hdrop]
      exact List.take_append_drop _ refs
  · intro self env refs hcd ids hmem
    simp only [BloomFilterWatchTest.run, createDocuments_eq_ok self env refs hcd] at hmem
    revert hmem
    split
    case h_1 e ev2 heq =>
      intro hmem
      rcases List.mem_append.mp hmem with h | h
      · simp at h
      · have hst := mem_startTarget self env (Event.deleteDocumentsCalled ids)
        rw [heq] at hst
        rcases hst h with ⟨m, hm⟩ | hm | hm | hm <;> cases hm
    case h_2 snapshot ev2 heq =>
      split
      case h_1 e heq2 =>
        intro hmem
        rcases List.mem_append.mp hmem with h | h
        · simp at h
        · have hst := mem_startTarget self env (Event.deleteDocumentsCalled ids)
          rw [heq] at hst
          rcases hst h with ⟨m, hm⟩ | hm | hm | hm <;> cases hm
      case h_2 heq2 =>
        split
        case h_1 e ev3 heq3 =>
          intro hmem
          rcases List.mem_append.mp hmem with h | h
          · rcases List.mem_append.mp h with h | h
            · simp at h
            · have hst := mem_startTarget self env (Event.deleteDocumentsCalled ids)
              rw [heq] at hst
              rcases hst h with ⟨m, hm⟩ | hm | hm | hm <;> cases hm
          · have hdel := deleteCalled_mem_deleteDocuments self
              (arraySlice refs ((refs.length : Int) - self.documentDeleteCount)) env ids
            rw [heq3] at hdel
            exact hdel.mp h
        case h_2 ev3 heq3 =>
          intro hmem
          rcases List.mem_append.mp hmem with h | h
          · rcases List.mem_append.mp h with h | h
            · rcases List.mem_append.mp h with h | h
              · rcases List.mem_append.mp h with h | h
                · simp at h
                · have hst := mem_startTarget self env (Event.deleteDocumentsCalled ids)
                  rw [heq] at hst
                  rcases hst h with ⟨m, hm⟩ | hm | hm | hm <;> cases hm
              · have hdel := deleteCalled_mem_deleteDocuments self
                  (arraySlice refs ((refs.length : Int) - self.documentDeleteCount)) env ids
                rw [heq3] at hdel
                exact hdel.mp h
            · simp [BloomFilterWatchTest.pause] at h
          · have hres := mem_resumeWatchStream self snapshot none env
              (Event.deleteDocumentsCalled ids) h
            rcases hres with ⟨m, hm⟩ | hm | hm | hm <;> cases hm

/-- Witness for C5: two documents, delete count 1 — the slice is the final
singleton, length 1, and prefixing the first document restores the list. -/
theorem claim5_deletes_last_d_witness :
    arraySlice ["a", "b"] (((["a", "b"] : List String).length : Int) - 1) =
      (["a", "b"] : List String).drop ((["a", "b"] : List String).length - (1 : Int).toNat) :=
  (claim5_deletes_last_d.1 ["a", "b"] 1 (by decide) (by decide)).1

/-- Events of the prefix passed to the snapshot-await tail stay in its
trace. -/
theorem mem_awaitSnapshotTail_of_mem_prefix (ev : List Event) (env : Env) (e : Event)
    (h : e ∈ ev) : e ∈ (awaitSnapshotTail ev env).2 := by
  simp only [awaitSnapshotTail]
  split <;> simp [h]

/-- Closed form of the snapshot-await tail when the snapshot promise
resolves. -/
theorem awaitSnapshotTail_eq_ok (ev : List Event) (env : Env) (s : TargetSnapshot)
    (hs : env.snapshot2 = Except.ok s) :
    awaitSnapshotTail ev env =
      (Except.ok (), (ev ++ [Event.log LogMsg.waitingForSnapshot]) ++
        [Event.log (LogMsg.gotSnapshot
          ((((sortStrings s.documentPaths).map documentIdFromDocumentPath).length : Int))
          ((sortStrings s.documentPaths).map documentIdFromDocumentPath))]) := by
  simp [awaitSnapshotTail, hs]

/-- Closed form of the snapshot-await tail when the snapshot promise
rejects. -/
theorem awaitSnapshotTail_eq_error (ev : List Event) (env : Env) (e : String)
    (hs : env.snapshot2 = Except.error e) :
    awaitSnapshotTail ev env =
      (Except.error (RunError.collaborator e),
        ev ++ [Event.log LogMsg.waitingForSnapshot]) := by
  simp [awaitSnapshotTail, hs]

/-- C6: the target-2 registration sent by the resume step carries a resume
descriptor whose expected count is the prior snapshot's document-path count
when no override is supplied, and the override value when one is. -/
theorem claim6_resume_expected_count (self : BloomFilterWatchTest)
    (snapshot : TargetSnapshot) (env : Env) :
    (∀ spec, Event.addTargetCalled spec ∈
        (self.resumeWatchStream snapshot none env).2 →
        spec = self.target2Spec snapshot (snapshot.documentPaths.length : Int)) ∧
    (Event.addTargetCalled (self.target2Spec snapshot
        (snapshot.documentPaths.length : Int)) ∈
      (self.resumeWatchStream snapshot none env).2) ∧
    (∀ c : Int,
      (∀ spec, Event.addTargetCalled spec ∈
          (self.resumeWatchStream snapshot (some ⟨some c⟩) env).2 →
          spec = self.target2Spec snapshot c) ∧
      Event.addTargetCalled (self.target2Spec snapshot c) ∈
        (self.resumeWatchStream snapshot (some ⟨some c⟩) env).2) := by
  refine ⟨?_, ?_, ?_⟩
  · intro spec hmem
    rcases mem_resumeWatchStream self snapshot none env
        (Event.addTargetCalled spec) hmem with ⟨m, hm⟩ | hm | hm | hm
    · cases hm
    · injection hm with h
    · cases hm
    · cases hm
  · simp only [BloomFilterWatchTest.resumeWatchStream]
    split
    · simp
    · split
      · simp
      · apply mem_awaitSnapshotTail_of_mem_prefix
        simp
      · split
        · simp
        · apply mem_awaitSnapshotTail_of_mem_prefix
          simp
  · intro c
    constructor
    · intro spec hmem
      rcases mem_resumeWatchStream self snapshot (some ⟨some c⟩) env
          (Event.addTargetCalled spec) hmem with ⟨m, hm⟩ | hm | hm | hm
      · cases hm
      · injection hm with h
      · cases hm
      · cases hm
    · simp only [BloomFilterWatchTest.resumeWatchStream]
      split
      · simp
      · split
        · simp
        · apply mem_awaitSnapshotTail_of_mem_prefix
          simp
        · split
          · simp
          · apply mem_awaitSnapshotTail_of_mem_prefix
            simp

/-- Witness for C6: in a concrete resume without override the registered
spec equals the target-2 spec with the snapshot's size as expected count,
and that registration event occurs. -/
theorem claim6_resume_expected_count_witness :
    Event.addTargetCalled ((mkBloomFilterWatchTest ("p") ("h") true 2 1
        ("coll") envDefault).target2Spec ⟨["x", "y"]⟩
        (((["x", "y"] : List String).length : Int))) ∈
      ((mkBloomFilterWatchTest ("p") ("h") true 2 1
        ("coll") envDefault).resumeWatchStream ⟨["x", "y"]⟩ none envDefault).2 ∧
    ((mkBloomFilterWatchTest ("p") ("h") true 2 1
        ("coll") envDefault).target2Spec ⟨["x", "y"]⟩
        (((["x", "y"] : List String).length : Int))) =
      ((mkBloomFilterWatchTest ("p") ("h") true 2 1
        ("coll") envDefault).target2Spec ⟨["x", "y"]⟩
        (((["x", "y"] : List String).length : Int))) :=
  ⟨(claim6_resume_expected_count (mkBloomFilterWatchTest ("p") ("h") true 2 1
      ("coll") envDefault) ⟨["x", "y"]⟩ envDefault).2.1,
   (claim6_resume_expected_count (mkBloomFilterWatchTest ("p") ("h") true 2 1
      ("coll") envDefault) ⟨["x", "y"]⟩ envDefault).1 _
    (claim6_resume_expected_count (mkBloomFilterWatchTest ("p") ("h") true 2 1
      ("coll") envDefault) ⟨["x", "y"]⟩ envDefault).2.1⟩

/-- C8: the resume step proceeds with whichever racing promise resolves
first — a winning filter is logged (with its decoded bit length when the
decode succeeds), a winning snapshot logs the no-filter message and no
filter or bit-length log can occur — a bit-length log occurs only when a
filter won and decoded; and the step returns successfully only after the
snapshot promise has resolved, its trace ending with the final snapshot
log. -/
theorem claim8_race_then_await_snapshot (self : BloomFilterWatchTest)
    (snapshot : TargetSnapshot) (options : Option ResumeOptions) (env : Env) :
    (∀ f, env.firstResolved = FirstResolved.filter (Except.ok f) →
        env.addTarget2Outcome = Except.ok () →
        Event.log (LogMsg.gotExistenceFilter f) ∈
          (self.resumeWatchStream snapshot options env).2 ∧
        (∀ n, getBloomFilterNumBits (some f) = some n →
          Event.log (LogMsg.bloomFilterSizeBits n) ∈
            (self.resumeWatchStream snapshot options env).2)) ∧
    (env.firstResolved = FirstResolved.snapshot →
        (∀ f, Event.log (LogMsg.gotExistenceFilter f) ∉
            (self.resumeWatchStream snapshot options env).2) ∧
        (∀ n, Event.log (LogMsg.bloomFilterSizeBits n) ∉
            (self.resumeWatchStream snapshot options env).2) ∧
        (∀ s, env.addTarget2Outcome = Except.ok () → env.snapshot2 = Except.ok s →
            Event.log LogMsg.didNotGetExistenceFilter ∈
              (self.resumeWatchStream snapshot options env).2)) ∧
    (∀ n, Event.log (LogMsg.bloomFilterSizeBits n) ∈
          (self.resumeWatchStream snapshot options env).2 →
        ∃ f, env.firstResolved = FirstResolved.filter (Except.ok f) ∧
          getBloomFilterNumBits (some f) = some n) ∧
    ((self.resumeWatchStream snapshot options env).1 = Except.ok () →
        ∃ s, env.snapshot2 = Except.ok s ∧
          (self.resumeWatchStream snapshot options env).2.getLast? =
            some (Event.log (LogMsg.gotSnapshot
              ((((sortStrings s.documentPaths).map documentIdFromDocumentPath).length : Int))
              ((sortStrings s.documentPaths).map documentIdFromDocumentPath)))) := by
  refine ⟨?_, ?_, ?_, ?_⟩
  · intro f hf hat
    simp only [BloomFilterWatchTest.resumeWatchStream, hat, hf]
    constructor
    · apply mem_awaitSnapshotTail_of_mem_prefix
      simp
    · intro n hn
      simp only [hn]
      apply mem_awaitSnapshotTail_of_mem_prefix
      simp
  · intro hs
    simp only [BloomFilterWatchTest.resumeWatchStream, hs]
    refine ⟨?_, ?_, ?_⟩
    · intro f
      split
      · simp
      · cases h2 : env.snapshot2 with
        | error e =>
            simp only [h2]
            simp
        | ok s =>
            simp only [h2, awaitSnapshotTail_eq_ok _ env s h2]
            simp
    · intro n
      split
      · simp
      · cases h2 : env.snapshot2 with
        | error e =>
            simp only [h2]
            simp
        | ok s =>
            simp only [h2, awaitSnapshotTail_eq_ok _ env s h2]
            simp
    · intro s hat h2
      simp only [hat, h2, awaitSnapshotTail_eq_ok _ env s h2]
      simp
  · intro n
    simp only [BloomFilterWatchTest.resumeWatchStream]
    split
    · simp
    · cases hf : env.firstResolved with
      | snapshot =>
          simp only [hf]
          cases h2 : env.snapshot2 with
          | error e =>
              simp only [h2]
              simp
          | ok s =>
              simp only [h2, awaitSnapshotTail_eq_ok _ env s h2]
              simp
      | filter outcome =>
          cases outcome with
          | error e =>
              simp only [hf]
              simp
          | ok f =>
              simp only [hf]
              intro hmem
              rcases mem_awaitSnapshotTail _ env _ hmem with h | h | ⟨c, ids, h⟩
              · simp only [List.mem_append] at h
                rcases h with h | h
                · rcases h with h | h
                  · simp at h
                  · simp at h
                · revert h
                  cases hb : getBloomFilterNumBits (some f) with
                  | none => simp
                  | some m =>
                      intro h
                      simp at h
                      exact ⟨f, rfl, h ▸ hb⟩
              · simp at h
              · simp at h
  · simp only [BloomFilterWatchTest.resumeWatchStream]
    split
    · intro h
      simp at h
    · split
      · intro h
        simp at h
      · cases h2 : env.snapshot2 with
        | error e =>
            rw [awaitSnapshotTail_eq_error _ env e h2]
            intro h
            simp at h
        | ok s =>
            rw [awaitSnapshotTail_eq_ok _ env s h2]
            intro _
            exact ⟨s, rfl, List.getLast?_concat _⟩
      · cases h2 : env.snapshot2 with
        | error e =>
            simp only [h2]
            intro h
            simp at h
        | ok s =>
            simp only [h2]
            rw [awaitSnapshotTail_eq_ok _ env s h2]
            intro _
            exact ⟨s, rfl, List.getLast?_concat _⟩

/-- Witness for C8: with a winning 2-byte/padding-1 filter, the filter log
and the 15-bit length log both occur. -/
theorem claim8_race_then_await_snapshot_witness :
    Event.log (LogMsg.gotExistenceFilter ⟨some ⟨some ⟨some ("ab"), some 1⟩⟩⟩) ∈
      ((mkBloomFilterWatchTest ("p") ("h") true 2 1 ("coll")
          envFilterFirst).resumeWatchStream ⟨["x"]⟩ none envFilterFirst).2 ∧
    Event.log (LogMsg.bloomFilterSizeBits 15) ∈
      ((mkBloomFilterWatchTest ("p") ("h") true 2 1 ("coll")
          envFilterFirst).resumeWatchStream ⟨["x"]⟩ none envFilterFirst).2 :=
  have h := (claim8_race_then_await_snapshot
      (mkBloomFilterWatchTest ("p") ("h") true 2 1 ("coll") envFilterFirst)
      ⟨["x"]⟩ none envFilterFirst).1
    ⟨some ⟨some ⟨some ("ab"), some 1⟩⟩⟩ rfl rfl
  ⟨h.1, h.2 15 rfl⟩
